import Mathlib

/-!
Shallow embedding of the ETL pipeline of `etl.py`: the schema-mapping
transforms of the raw CSV tables into dimension tables, the derivation of
country codes from the fact source, the enrichment client with its JSON
normalization, the partitioned fact transform, and the post-load quality
checks. Each definition is translated from the corresponding function of
the source; theorems settle the behavioural claims about them.
-/

namespace Etl

/-- A tabular dataset: a header of column names plus rows of cells, as
`pandas.read_csv` yields it. -/
structure DataFrame where
  cols : List String
  rows : List (List String)
  deriving Repr, DecidableEq

/-- One column name under `pandas.DataFrame.rename(columns=m)`: a name
that is a key of the mapping is replaced by its value, any other name is
kept; with the default `errors="ignore"`, mapping keys absent from the
table are silently ignored. -/
def renameCell (m : List (String × String)) (c : String) : String :=
  match m with
  | [] => c
  | (k, v) :: rest => if c = k then v else renameCell rest c

/-- `pandas.DataFrame.rename(columns=m)`: renames column names only; the
rows are untouched and no error is ever raised. -/
def renameColumns (df : DataFrame) (m : List (String × String)) : DataFrame :=
  { cols := df.cols.map (renameCell m), rows := df.rows }

/-- `pandas.DataFrame.drop(columns=ds)` with the default `errors="raise"`:
fails with a `KeyError` when any named column is absent, otherwise removes
the named columns and, positionally, their cells from every row. -/
def dropColumns (df : DataFrame) (ds : List String) : Except String DataFrame :=
  if ds.all (fun d => decide (d ∈ df.cols)) then
    Except.ok
      { cols := df.cols.filter (fun c => !(decide (c ∈ ds)))
        rows := df.rows.map (fun r =>
          ((df.cols.zip r).filter (fun p => !(decide (p.1 ∈ ds)))).map (fun p => p.2)) }
  else Except.error "KeyError: columns not found in axis"

/-- Column mapping of `process_units_data` (line 54 of `etl.py`). -/
def unitsMapping : List (String × String) :=
  [("Unit Name", "unit_name"), ("Description", "description")]

/-- Transform step of `process_units_data`: rename the two columns of
`Units.csv`; no columns are dropped and the rows pass through unchanged. -/
def process_units_data (df : DataFrame) : DataFrame :=
  renameColumns df unitsMapping

/-- Column mapping of `process_item_group_data` (lines 82-84). -/
def itemGroupMapping : List (String × String) :=
  [("Item Group Code", "item_group_code"), ("Item Group", "item_group"),
   ("Item Code", "item_code"), ("Item", "item")]

/-- Dropped columns of `process_item_group_data` (line 85). -/
def itemGroupDrops : List String :=
  ["Factor", "CPC Code", "HS Code", "HS07 Code", "HS12 Code"]

/-- Transform step of `process_item_group_data`: rename four columns of
`ItemGroup.csv`, then drop five others. -/
def process_item_group_data (df : DataFrame) : Except String DataFrame :=
  dropColumns (renameColumns df itemGroupMapping) itemGroupDrops

lemma renameCell_eq_iff (m : List (String × String)) (d : String)
    (hk : ∀ p ∈ m, p.1 ≠ d) (hv : ∀ p ∈ m, p.2 ≠ d) (c : String) :
    renameCell m c = d ↔ c = d := by
  induction m with
  | nil => simp [renameCell]
  | cons p rest ih =>
      obtain ⟨k, v⟩ := p
      by_cases hck : c = k
      · subst hck
        simp only [renameCell, if_pos rfl]
        constructor
        · intro hvd
          exact absurd hvd (hv (c, v) (List.mem_cons_self _ _))
        · intro hcd
          exact absurd hcd (hk (c, v) (List.mem_cons_self _ _))
      · simp only [renameCell, if_neg hck]
        exact ih (fun p hp => hk p (List.mem_cons_of_mem _ hp))
          (fun p hp => hv p (List.mem_cons_of_mem _ hp))

lemma mem_map_renameCell (cols : List String) (m : List (String × String)) (d : String)
    (hk : ∀ p ∈ m, p.1 ≠ d) (hv : ∀ p ∈ m, p.2 ≠ d) :
    d ∈ cols.map (renameCell m) ↔ d ∈ cols := by
  rw [List.mem_map]
  constructor
  · rintro ⟨c, hc, hcd⟩
    rwa [(renameCell_eq_iff m d hk hv c).mp hcd] at hc
  · intro hd
    exact ⟨d, hd, (renameCell_eq_iff m d hk hv d).mpr rfl⟩

/-- C4: the spec says the schema mapper "fails with SchemaMismatch if a
column named in the mapping or drop set is absent from the source"; on the
code this holds only for the drop set: `process_item_group_data` fails
exactly when a column of the drop set is absent, while a column named in
the rename mapping but absent from the source is silently ignored. -/
theorem c4_item_group_fails_iff_drop_absent (df : DataFrame) :
    (∃ e, process_item_group_data df = Except.error e) ↔
      (∃ d ∈ itemGroupDrops, d ∉ df.cols) := by
  have hsep : ∀ d ∈ itemGroupDrops, ∀ p ∈ itemGroupMapping, p.1 ≠ d ∧ p.2 ≠ d := by
    decide
  have hmem : ∀ d ∈ itemGroupDrops,
      (d ∈ (renameColumns df itemGroupMapping).cols ↔ d ∈ df.cols) := by
    intro d hd
    exact mem_map_renameCell df.cols itemGroupMapping d
      (fun p hp => (hsep d hd p hp).1) (fun p hp => (hsep d hd p hp).2)
  unfold process_item_group_data dropColumns
  by_cases hall :
      itemGroupDrops.all (fun d => decide (d ∈ (renameColumns df itemGroupMapping).cols)) = true
  · rw [if_pos hall]
    simp only [List.all_eq_true, decide_eq_true_iff] at hall
    constructor
    · rintro ⟨e, he⟩
      exact absurd he (by simp)
    · rintro ⟨d, hd, hnd⟩
      exact absurd ((hmem d hd).mp (hall d hd)) hnd
  · rw [if_neg hall]
    simp only [List.all_eq_true, decide_eq_true_iff, not_forall] at hall
    constructor
    · rintro ⟨-, -⟩
      obtain ⟨d, hd, hnd⟩ := hall
      exact ⟨d, hd, fun hmem' => hnd ((hmem d hd).mpr hmem')⟩
    · intro _
      exact ⟨"KeyError: columns not found in axis", rfl⟩

/-- A source table missing the mapped column `Item Group Code` (and three
other mapped columns) but holding every dropped column. -/
def itemGroupCounterDf : DataFrame :=
  { cols := ["Factor", "CPC Code", "HS Code", "HS07 Code", "HS12 Code"], rows := [[]] }

/-- C4 counterexample: on a table where the column `Item Group Code`,
named in the rename mapping, is absent, `process_item_group_data`
succeeds instead of failing, refuting the claim that a missing
mapping column causes a schema error. -/
theorem c4_counterexample :
    ("Item Group Code" ∉ itemGroupCounterDf.cols) ∧
      process_item_group_data itemGroupCounterDf =
        Except.ok { cols := [], rows := [[]] } := by
  constructor
  · decide
  · rfl

/-- The end-to-end example table of the spec: `Units.csv` with columns
`Unit Name, Description` and two rows. -/
def unitsExample : DataFrame :=
  { cols := ["Unit Name", "Description"]
    rows := [["ha", "hectare"], ["t", "tonne"]] }

/-- C5: the schema mapper for `Units.csv` renames every column by the
mapping (there is no drop set for this source) and keeps exactly the same
rows in the same order — no filtering and no dedup; on the spec's example
table the output header is `unit_name, description` and the two rows are
preserved in order. -/
theorem c5_units_columns_and_rows (df : DataFrame) :
    (process_units_data df).rows = df.rows ∧
      (process_units_data df).cols = df.cols.map (renameCell unitsMapping) ∧
      process_units_data unitsExample =
        { cols := ["unit_name", "description"]
          rows := [["ha", "hectare"], ["t", "tonne"]] } :=
  ⟨rfl, rfl, rfl⟩

/-- Local filesystem state: the existing files with their sizes in bytes. -/
structure FileSys where
  files : List (String × Nat)
  deriving Repr, DecidableEq

/-- `os.path.isfile(path)`: true when the path names an existing file;
never raises. -/
def isfile (fs : FileSys) (path : String) : Bool :=
  fs.files.any (fun f => f.1 == path)

/-- `os.stat(path).st_size`: the size of an existing file; raises
`FileNotFoundError` when the path does not exist. -/
def statSize (fs : FileSys) (path : String) : Except String Nat :=
  match fs.files.find? (fun f => f.1 == path) with
  | some f => Except.ok f.2
  | none => Except.error "FileNotFoundError"

/-- Remote object-storage state: the stored objects as bucket/key pairs. -/
structure S3State where
  objects : List (String × String)
  deriving Repr, DecidableEq

/-- `s3.list_objects_v2(Bucket=b, Prefix=p)` yields a response with a
`Contents` entry exactly when some object of the bucket has a key that
starts with the given name. -/
def listHasContents (s3 : S3State) (bucket name : String) : Bool :=
  s3.objects.any (fun o => o.1 == bucket && name.isPrefixOf o.2)

/-- The three per-artifact booleans printed by `quality_checks`, each a
function of its own condition only. -/
structure ArtifactReport where
  presentLocal : Bool
  nonEmpty : Bool
  uploaded : Bool
  deriving Repr, DecidableEq

/-- The fixed list of artifact names checked by `quality_checks`. -/
def expectedArtifacts : List String :=
  ["dim_unit.csv", "dim_item_group.csv", "dim_flag.csv", "dim_element.csv",
   "dim_country_group.csv", "fact_world_data.csv", "dim_country_info.csv"]

/-- One per-artifact block of `quality_checks` (e.g. lines 322-344): the
`os.path.isfile` branch prints and never raises, the size check calls
`os.stat` unconditionally and therefore raises when the local file is
absent, and the S3 listing check looks for a `Contents` key in the
response. -/
def checkArtifact (fs : FileSys) (s3 : S3State) (bucket name : String) :
    Except String ArtifactReport := do
  let present := isfile fs ("output/" ++ name)
  let size ← statSize fs ("output/" ++ name)
  Except.ok
    { presentLocal := present
      nonEmpty := size != 0
      uploaded := listHasContents s3 bucket name }

/-- `quality_checks`: the seven per-artifact blocks run in sequence in one
function body; an uncaught exception in one block aborts all later
blocks. -/
def quality_checks (fs : FileSys) (s3 : S3State) (bucket : String) :
    Except String (List (String × ArtifactReport)) :=
  expectedArtifacts.mapM (fun name => do
    let r ← checkArtifact fs s3 bucket name
    Except.ok (name, r))

/-- The successful-path report of one artifact, read directly off the
filesystem and S3 state. -/
def reportOf (fs : FileSys) (s3 : S3State) (bucket name : String) : ArtifactReport :=
  { presentLocal := isfile fs ("output/" ++ name)
    nonEmpty := ((fs.files.find? (fun f => f.1 == ("output/" ++ name))).map
      (fun f => f.2 != 0)).getD false
    uploaded := listHasContents s3 bucket name }

lemma checkArtifact_ok (fs : FileSys) (s3 : S3State) (bucket name : String)
    (h : isfile fs ("output/" ++ name) = true) :
    checkArtifact fs s3 bucket name = Except.ok (reportOf fs s3 bucket name) := by
  have hsome : (fs.files.find? (fun f => f.1 == ("output/" ++ name))).isSome := by
    unfold isfile at h
    rw [List.any_eq_true] at h
    obtain ⟨f, hf, hpf⟩ := h
    exact List.find?_isSome.mpr ⟨f, hf, hpf⟩
  obtain ⟨f, hf⟩ := Option.isSome_iff_exists.mp hsome
  unfold checkArtifact statSize reportOf
  rw [hf]
  rfl

/-- C1: the spec claims `quality_checks` evaluates all three conditions
independently for every artifact and "does not throw" even when a local
file is absent. On the code this holds only when every expected artifact
exists locally: in that case every block succeeds and the run yields the
per-artifact report of the three independently computed booleans. When a
local file is absent (see the counterexample) the existence check alone
reports false, but the unguarded `os.stat` call of the size check raises
`FileNotFoundError` and aborts the remaining checks. -/
theorem c1_quality_checks_reports (fs : FileSys) (s3 : S3State) (bucket : String)
    (h : ∀ name ∈ expectedArtifacts, isfile fs ("output/" ++ name) = true) :
    quality_checks fs s3 bucket =
      Except.ok (expectedArtifacts.map (fun name => (name, reportOf fs s3 bucket name))) := by
  have loop : ∀ L : List String, (∀ name ∈ L, isfile fs ("output/" ++ name) = true) →
      L.mapM (fun name => do
        let r ← checkArtifact fs s3 bucket name
        Except.ok (name, r)) =
        Except.ok (L.map (fun name => (name, reportOf fs s3 bucket name))) := by
    intro L
    induction L with
    | nil => intro _; rfl
    | cons a l ih =>
        intro hL
        rw [List.mapM_cons, checkArtifact_ok fs s3 bucket a (hL a (List.mem_cons_self _ _)),
          ih (fun n hn => hL n (List.mem_cons_of_mem _ hn))]
        rfl
  exact loop expectedArtifacts h

/-- A filesystem holding every expected artifact, each of five bytes. -/
def fsAll : FileSys :=
  { files := expectedArtifacts.map (fun n => ("output/" ++ n, 5)) }

/-- An S3 state with no objects at all. -/
def s3Empty : S3State := { objects := [] }

/-- C1 witness: on a filesystem holding all seven artifacts and an empty
bucket, `quality_checks` returns the full report (with `uploaded = false`
everywhere) without raising. -/
theorem c1_witness :
    quality_checks fsAll s3Empty "bucket" =
      Except.ok (expectedArtifacts.map (fun name => (name, reportOf fsAll s3Empty "bucket" name))) :=
  c1_quality_checks_reports fsAll s3Empty "bucket" (by decide)

/-- A filesystem on which no artifact exists at all. -/
def fsMissing : FileSys := { files := [] }

/-- C1 counterexample: with the local file of the first artifact absent,
`quality_checks` raises `FileNotFoundError` (from `os.stat`) instead of
reporting `exists=false` for it, refuting the claim that the gate never
raises and reports all three booleans for every artifact. -/
theorem c1_counterexample :
    quality_checks fsMissing s3Empty "bucket" = Except.error "FileNotFoundError" := rfl

/-- A parsed JSON value, as `r.json()` and `json.load` yield it. Numbers
are kept as naturals: the fields the pipeline touches are strings,
objects and arrays. -/
inductive JsonVal where
  | str (s : String)
  | num (n : Nat)
  | arr (elems : List JsonVal)
  | obj (fields : List (String × JsonVal))
  deriving Repr

/-- Python `d[k]` on a parsed JSON value: a `KeyError` when the key is
absent, a `TypeError` when the value is not an object. -/
def getKey (j : JsonVal) (k : String) : Except String JsonVal :=
  match j with
  | .obj fields =>
      match fields.find? (fun p => p.1 == k) with
      | some p => Except.ok p.2
      | none => Except.error ("KeyError: " ++ k)
  | _ => Except.error "TypeError: value is not subscriptable"

/-- `getKey` as a partial lookup. -/
def getKeyOpt (j : JsonVal) (k : String) : Option JsonVal :=
  (getKey j k).toOption

/-- Python `d[k] = v` on an object: replace the value at an existing key
in place, append a fresh key at the end; on a non-object the assignment
never happens in the source (it always follows a successful read of the
same key). -/
def setKey (j : JsonVal) (k : String) (v : JsonVal) : JsonVal :=
  match j with
  | .obj fields =>
      if fields.any (fun p => p.1 == k) then
        .obj (fields.map (fun p => if p.1 == k then (p.1, v) else p))
      else .obj (fields ++ [(k, v)])
  | other => other

/-- Python `del d[k]` on an object: remove the key; in the source the
delete always follows a successful truthy read of the same key, so the
key is present. -/
def delKey (j : JsonVal) (k : String) : JsonVal :=
  match j with
  | .obj fields => .obj (fields.filter (fun p => !(p.1 == k)))
  | other => other

/-- Python truthiness of a parsed JSON value: empty containers, the empty
string and zero are falsy. -/
def pyTruthy : JsonVal → Bool
  | .str s => !(s == "")
  | .num n => !(n == 0)
  | .arr elems => !(elems.isEmpty)
  | .obj fields => !(fields.isEmpty)

/-- Python `str(...)` as applied to language names; in every response the
language values are strings, so the container cases are placeholders. -/
def pyStr : JsonVal → String
  | .str s => s
  | .num n => toString n
  | .arr _ => "list"
  | .obj _ => "dict"

/-- `", ".flatten(strings)`. -/
def joinComma (l : List String) : String :=
  String.intercalate ", " l

/-- `x.values()`: the values of a dict; an `AttributeError` otherwise. -/
def dictValues (j : JsonVal) : Except String (List JsonVal) :=
  match j with
  | .obj fields => Except.ok (fields.map (fun p => p.2))
  | _ => Except.error "AttributeError: values"

/-- One item of a joined sequence: `str.flatten` requires every item to be a
string. -/
def strItem (e : JsonVal) : Except String String :=
  match e with
  | .str s => Except.ok s
  | _ => Except.error "TypeError: sequence item is not a str"

/-- `", ".flatten(iterable)`: iterating a list yields its elements, each of
which must be a string; iterating a string yields its characters;
iterating a dict yields its keys; a number is not iterable. -/
def pyJoinIter (j : JsonVal) : Except String String :=
  match j with
  | .arr elems => do
      let strs ← elems.mapM strItem
      Except.ok (joinComma strs)
  | .str s => Except.ok (joinComma (s.data.map (fun ch => String.singleton ch)))
  | .obj fields => Except.ok (joinComma (fields.map (fun p => p.1)))
  | .num _ => Except.error "TypeError: int object is not iterable"

/-- The per-record normalization loop body of `process_countries_data`
(lines 283-292): flatten a truthy `languages` dict to the comma-joined
string of its values, flatten a truthy `capital` iterable to a
comma-joined string, delete a truthy `name.nativeName`; each subscript
raises a `KeyError` when its key is absent. -/
def normalizeItem (item : JsonVal) : Except String JsonVal := do
  let langs ← getKey item "languages"
  let item1 ←
    if pyTruthy langs then do
      let vals ← dictValues langs
      Except.ok (setKey item "languages" (.str (joinComma (vals.map pyStr))))
    else Except.ok item
  let cap ← getKey item1 "capital"
  let item2 ←
    if pyTruthy cap then do
      let joined ← pyJoinIter cap
      Except.ok (setKey item1 "capital" (.str joined))
    else Except.ok item1
  let nameV ← getKey item2 "name"
  let native ← getKey nameV "nativeName"
  if pyTruthy native then
    Except.ok (setKey item2 "name" (delKey nameV "nativeName"))
  else Except.ok item2

/-- The normalization loop over the decoded `countries_info.json` list; a
raised `KeyError` aborts the whole loop. -/
def countriesInfoData (items : List JsonVal) : Except String (List JsonVal) :=
  items.mapM normalizeItem

/-- One HTTP response of the enrichment service: the status code and the
decoded JSON body. -/
structure ApiResponse where
  status_code : Nat
  body : JsonVal

/-- The per-code fetch loop of `process_countries_data` (lines 263-271):
one GET per code; a status of 201 or above skips the code (`continue`),
otherwise the JSON body is appended to `result_file_countries`. -/
def fetchCountries (codes : List String) (api : String → ApiResponse) : List JsonVal :=
  match codes with
  | [] => []
  | c :: rest =>
      if 201 ≤ (api c).status_code then fetchCountries rest api
      else (api c).body :: fetchCountries rest api

/-- C2: a code whose lookup returns status 201 or above contributes no
record to the fetch output — assuming the service tags each body with the
queried code in `ccn3`, no output record carries the failed code — and
the loop still processes every other code: the output is exactly the
bodies of the successful codes, in order. -/
theorem c2_failed_code_skipped (codes : List String) (api : String → ApiResponse)
    (c : String)
    (hid : ∀ d, getKeyOpt (api d).body "ccn3" = some (JsonVal.str d))
    (hc : 201 ≤ (api c).status_code) :
    (∀ r ∈ fetchCountries codes api, getKeyOpt r "ccn3" ≠ some (JsonVal.str c)) ∧
      fetchCountries codes api =
        (codes.filter (fun d => decide ((api d).status_code < 201))).map
          (fun d => (api d).body) := by
  have heq : fetchCountries codes api =
      (codes.filter (fun d => decide ((api d).status_code < 201))).map
        (fun d => (api d).body) := by
    induction codes with
    | nil => rfl
    | cons d rest ih =>
        by_cases hd : 201 ≤ (api d).status_code
        · have : decide ((api d).status_code < 201) = false := by
            simp [Nat.not_lt.mpr hd]
          simp [fetchCountries, if_pos hd, List.filter_cons, this, ih]
        · have hlt : (api d).status_code < 201 := Nat.lt_of_not_le hd
          have : decide ((api d).status_code < 201) = true := by simp [hlt]
          simp [fetchCountries, if_neg hd, List.filter_cons, this, ih]
  refine ⟨?_, heq⟩
  intro r hr
  rw [heq] at hr
  rw [List.mem_map] at hr
  obtain ⟨d, hd, hrd⟩ := hr
  rw [List.mem_filter] at hd
  have hdlt : (api d).status_code < 201 := by
    have := hd.2
    simpa using this
  subst hrd
  rw [hid d]
  intro hcontra
  have : d = c := by
    have := Option.some.inj hcontra
    exact JsonVal.str.inj this
  subst this
  exact absurd hc (Nat.not_le.mpr hdlt)

/-- The example service of the spec: code 999 answers 404, every other
code answers 200; every body carries its queried code in `ccn3`. -/
def apiExample (d : String) : ApiResponse :=
  { status_code := if d == "999" then 404 else 200
    body := .obj [("ccn3", .str d)] }

/-- C2 witness: on the spec example, codes 004, 008, 999 where 999
answers 404, the output carries no record for 999 and consists of the
bodies for 004 and 008 in order. -/
theorem c2_witness :
    (∀ r ∈ fetchCountries ["004", "008", "999"] apiExample,
        getKeyOpt r "ccn3" ≠ some (JsonVal.str "999")) ∧
      fetchCountries ["004", "008", "999"] apiExample =
        ((["004", "008", "999"].filter
            (fun d => decide ((apiExample d).status_code < 201))).map
          (fun d => (apiExample d).body)) :=
  c2_failed_code_skipped ["004", "008", "999"] apiExample "999"
    (fun d => rfl) (by decide)

lemma except_bind_ok {ε α β : Type} (a : α) (f : α → Except ε β) :
    (Except.ok a >>= f) = f a := rfl

/-- A record lacking the optional `languages` key entirely, with the
other touched fields present. -/
def itemNoLanguages : JsonVal :=
  .obj [("ccn3", .str "004"), ("capital", .arr []),
        ("name", .obj [("common", .str "X"), ("nativeName", .obj [])])]

/-- C3 counterexample: on a record from which the optional `languages`
field is absent, normalization raises `KeyError` instead of succeeding
with the field left empty, refuting the claim that absent optional fields
remain empty rather than causing failure. -/
theorem c3_counterexample :
    normalizeItem itemNoLanguages = Except.error "KeyError: languages" := rfl

/-- C3: the tolerated case is an optional field that is present but
empty, not one that is absent: when `languages`, `capital`, `name` and
`name.nativeName` are all present and the three optional ones are falsy
(empty), normalization succeeds and returns the record unchanged — the
empty fields stay empty. An absent field instead raises `KeyError` (see
the counterexample). -/
theorem c3_empty_fields_pass_through (item langs cap nameV native : JsonVal)
    (hl : getKey item "languages" = Except.ok langs) (hl0 : pyTruthy langs = false)
    (hcap : getKey item "capital" = Except.ok cap) (hc0 : pyTruthy cap = false)
    (hn : getKey item "name" = Except.ok nameV)
    (hnn : getKey nameV "nativeName" = Except.ok native) (hn0 : pyTruthy native = false) :
    normalizeItem item = Except.ok item := by
  unfold normalizeItem
  rw [hl]
  simp only [except_bind_ok, hl0, Bool.false_eq_true, if_false]
  rw [hcap]
  simp only [except_bind_ok, hc0, Bool.false_eq_true, if_false]
  rw [hn]
  simp only [except_bind_ok]
  rw [hnn]
  simp only [except_bind_ok, hn0, Bool.false_eq_true, if_false]

/-- A record whose optional fields are all present but empty. -/
def itemEmptyFields : JsonVal :=
  .obj [("languages", .obj []), ("capital", .arr []),
        ("name", .obj [("common", .str "X"), ("nativeName", .obj [])])]

/-- C3 witness: a record with empty `languages`, `capital` and
`nativeName` passes through normalization unchanged. -/
theorem c3_witness :
    normalizeItem itemEmptyFields = Except.ok itemEmptyFields :=
  c3_empty_fields_pass_through itemEmptyFields (.obj []) (.arr [])
    (.obj [("common", .str "X"), ("nativeName", .obj [])]) (.obj [])
    rfl rfl rfl rfl rfl rfl rfl

lemma getKey_ok_obj (j : JsonVal) (k : String) (v : JsonVal)
    (h : getKey j k = Except.ok v) : ∃ fields, j = JsonVal.obj fields := by
  cases j with
  | obj fields => exact ⟨fields, rfl⟩
  | str s => simp [getKey] at h
  | num n => simp [getKey] at h
  | arr elems => simp [getKey] at h

lemma find?_map_set_same (fields : List (String × JsonVal)) (k : String) (v : JsonVal) :
    (fields.map (fun p => if p.1 == k then (p.1, v) else p)).find? (fun p => p.1 == k) =
      (fields.find? (fun p => p.1 == k)).map (fun p => (p.1, v)) := by
  induction fields with
  | nil => rfl
  | cons q rest ih =>
      rw [List.map_cons]
      by_cases hq : (q.1 == k) = true
      · rw [if_pos hq]
        simp only [List.find?_cons]
        rw [hq]
        rfl
      · have hq' : (q.1 == k) = false := by simpa using hq
        rw [if_neg hq]
        simp only [List.find?_cons]
        rw [hq']
        exact ih

lemma find?_map_set_ne (fields : List (String × JsonVal)) (k k' : String) (v : JsonVal)
    (h : k ≠ k') :
    (fields.map (fun p => if p.1 == k then (p.1, v) else p)).find? (fun p => p.1 == k') =
      fields.find? (fun p => p.1 == k') := by
  induction fields with
  | nil => rfl
  | cons q rest ih =>
      rw [List.map_cons]
      by_cases hq : (q.1 == k) = true
      · have hqk : q.1 = k := by simpa using hq
        have hq' : (q.1 == k') = false := by
          rw [hqk]
          exact beq_eq_false_iff_ne.mpr h
        rw [if_pos hq]
        simp only [List.find?_cons]
        rw [hq']
        exact ih
      · rw [if_neg hq]
        simp only [List.find?_cons]
        cases hq2 : ((q.1 : String) == k') with
        | true => rfl
        | false => exact ih

lemma find?_append_ne (fields : List (String × JsonVal)) (k k' : String) (v : JsonVal)
    (h : k ≠ k') :
    (fields ++ [(k, v)]).find? (fun p => p.1 == k') = fields.find? (fun p => p.1 == k') := by
  induction fields with
  | nil =>
      have hkk : ((k : String) == k') = false := beq_eq_false_iff_ne.mpr h
      rw [List.nil_append]
      simp only [List.find?_cons]
      rw [hkk]
  | cons q rest ih =>
      rw [List.cons_append]
      simp only [List.find?_cons]
      cases hq : ((q.1 : String) == k') with
      | true => rfl
      | false => exact ih

lemma getKey_obj_eq (fields : List (String × JsonVal)) (k : String) :
    getKey (JsonVal.obj fields) k =
      match fields.find? (fun p => p.1 == k) with
      | some p => Except.ok p.2
      | none => Except.error ("KeyError: " ++ k) := rfl

lemma setKey_obj_eq (fields : List (String × JsonVal)) (k : String) (v : JsonVal) :
    setKey (JsonVal.obj fields) k v =
      if fields.any (fun p => p.1 == k) then
        JsonVal.obj (fields.map (fun p => if p.1 == k then (p.1, v) else p))
      else JsonVal.obj (fields ++ [(k, v)]) := rfl

lemma delKey_obj_eq (fields : List (String × JsonVal)) (k : String) :
    delKey (JsonVal.obj fields) k =
      JsonVal.obj (fields.filter (fun p => !(p.1 == k))) := rfl

lemma getKey_setKey_self (j : JsonVal) (k : String) (v w : JsonVal)
    (h : getKey j k = Except.ok w) :
    getKey (setKey j k v) k = Except.ok v := by
  obtain ⟨fields, rfl⟩ := getKey_ok_obj j k w h
  rw [getKey_obj_eq] at h
  have hfind : ∃ p, fields.find? (fun p => p.1 == k) = some p := by
    cases hf : fields.find? (fun p => p.1 == k) with
    | some p => exact ⟨p, rfl⟩
    | none =>
        rw [hf] at h
        simp at h
  obtain ⟨p, hp⟩ := hfind
  have hpk := List.find?_some hp
  have hany : fields.any (fun p => p.1 == k) = true := by
    rw [List.any_eq_true]
    exact ⟨p, List.mem_of_find?_eq_some hp, hpk⟩
  rw [setKey_obj_eq, if_pos hany, getKey_obj_eq, find?_map_set_same, hp]
  rfl

lemma getKey_setKey_ne (j : JsonVal) (k k' : String) (v : JsonVal) (h : k ≠ k') :
    getKey (setKey j k v) k' = getKey j k' := by
  cases j with
  | obj fields =>
      rw [setKey_obj_eq]
      by_cases hany : fields.any (fun p => p.1 == k) = true
      · rw [if_pos hany, getKey_obj_eq, getKey_obj_eq, find?_map_set_ne fields k k' v h]
      · rw [if_neg hany, getKey_obj_eq, getKey_obj_eq, find?_append_ne fields k k' v h]
  | str s => rfl
  | num n => rfl
  | arr elems => rfl

lemma getKey_delKey_self (fields : List (String × JsonVal)) (k : String) :
    getKey (delKey (JsonVal.obj fields) k) k = Except.error ("KeyError: " ++ k) := by
  rw [delKey_obj_eq, getKey_obj_eq]
  have hnone : (fields.filter (fun p => !(p.1 == k))).find? (fun p => p.1 == k) = none := by
    rw [List.find?_eq_none]
    intro x hx
    have hf := (List.mem_filter.mp hx).2
    simp only [Bool.not_eq_true'] at hf
    simp [hf]
  rw [hnone]

lemma mapM_strItem (Cs : List String) :
    (Cs.map JsonVal.str).mapM strItem = Except.ok Cs := by
  induction Cs with
  | nil => rfl
  | cons s t ih =>
      rw [List.map_cons, List.mapM_cons, ih]
      rfl

/-- A record with a nonempty `languages` dict, a capital list, and an
empty (falsy) `nativeName` sub-structure inside `name`. -/
def itemEmptyNative : JsonVal :=
  .obj [("languages", .obj [("eng", .str "English")]),
        ("capital", .arr [.str "Paris"]),
        ("name", .obj [("common", .str "X"), ("nativeName", .obj [])])]

/-- Whether a key is present in an object. -/
def hasKey (j : JsonVal) (k : String) : Bool :=
  match j with
  | .obj fields => fields.any (fun p => p.1 == k)
  | _ => false

/-- C7 counterexample: on a successful response whose `nativeName`
sub-structure is empty, normalization succeeds but keeps `nativeName` in
place — the truthiness guard before the delete skips a falsy value — so
the sub-structure is not always removed entirely, refuting the claim. -/
theorem c7_counterexample :
    normalizeItem itemEmptyNative =
      Except.ok (.obj [("languages", .str "English"), ("capital", .str "Paris"),
                       ("name", .obj [("common", .str "X"), ("nativeName", .obj [])])]) ∧
      ((normalizeItem itemEmptyNative).bind (fun out => getKey out "name")).toOption.map
          (fun n => hasKey n "nativeName") = some true :=
  ⟨rfl, rfl⟩

/-- C7: on a record whose `languages` is a nonempty code-to-name mapping,
whose `capital` is a nonempty list of strings and whose `name.nativeName`
is truthy, normalization flattens `languages` to the comma-joined string
of its values, flattens `capital` to the comma-joined string of its
elements, and removes `nativeName` from `name`. (An empty `nativeName`
is kept instead — see the counterexample.) -/
theorem c7_success_flattening (item : JsonVal) (L : List (String × JsonVal))
    (Cs : List String) (nameV native : JsonVal)
    (hL : getKey item "languages" = Except.ok (.obj L)) (hL0 : L ≠ [])
    (hC : getKey item "capital" = Except.ok (.arr (Cs.map JsonVal.str)))
    (hC0 : Cs ≠ [])
    (hN : getKey item "name" = Except.ok nameV)
    (hnn : getKey nameV "nativeName" = Except.ok native)
    (hn0 : pyTruthy native = true) :
    ∃ out, normalizeItem item = Except.ok out ∧
      getKey out "languages" =
        Except.ok (.str (joinComma (L.map (fun p => pyStr p.2)))) ∧
      getKey out "capital" = Except.ok (.str (joinComma Cs)) ∧
      ∃ nameOut, getKey out "name" = Except.ok nameOut ∧
        getKey nameOut "nativeName" = Except.error "KeyError: nativeName" := by
  have hLt : pyTruthy (JsonVal.obj L) = true := by
    cases L with
    | nil => exact absurd rfl hL0
    | cons p t => rfl
  have hCt : pyTruthy (JsonVal.arr (Cs.map JsonVal.str)) = true := by
    cases Cs with
    | nil => exact absurd rfl hC0
    | cons s t => rfl
  have hC1 : getKey (setKey item "languages"
      (JsonVal.str (joinComma ((L.map (fun p => p.2)).map pyStr)))) "capital" =
      Except.ok (.arr (Cs.map JsonVal.str)) := by
    rw [getKey_setKey_ne _ _ _ _ (by decide)]
    exact hC
  have hN2 : getKey (setKey (setKey item "languages"
      (JsonVal.str (joinComma ((L.map (fun p => p.2)).map pyStr)))) "capital"
      (JsonVal.str (joinComma Cs))) "name" = Except.ok nameV := by
    rw [getKey_setKey_ne _ _ _ _ (by decide), getKey_setKey_ne _ _ _ _ (by decide)]
    exact hN
  refine ⟨setKey (setKey (setKey item "languages"
      (JsonVal.str (joinComma ((L.map (fun p => p.2)).map pyStr)))) "capital"
      (JsonVal.str (joinComma Cs))) "name" (delKey nameV "nativeName"),
    ?_, ?_, ?_, delKey nameV "nativeName", ?_, ?_⟩
  · unfold normalizeItem
    rw [hL]
    simp only [except_bind_ok, hLt, if_true]
    simp only [dictValues, except_bind_ok]
    rw [hC1]
    simp only [except_bind_ok, hCt, if_true]
    simp only [pyJoinIter, mapM_strItem, except_bind_ok]
    rw [hN2]
    simp only [except_bind_ok]
    rw [hnn]
    simp only [except_bind_ok, hn0, if_true]
  · rw [getKey_setKey_ne _ _ _ _ (by decide),
      getKey_setKey_ne _ _ _ _ (by decide),
      getKey_setKey_self item "languages" _ (JsonVal.obj L) hL,
      List.map_map]
    rfl
  · rw [getKey_setKey_ne _ _ _ _ (by decide),
      getKey_setKey_self _ "capital" _ (JsonVal.arr (Cs.map JsonVal.str)) hC1]
  · rw [getKey_setKey_self _ "name" _ nameV hN2]
  · obtain ⟨nfields, hnf⟩ := getKey_ok_obj nameV "nativeName" native hnn
    rw [hnf, getKey_delKey_self nfields "nativeName"]
    rfl

/-- A record with a nonempty `languages` mapping, a two-element capital
list and a truthy `nativeName`. -/
def itemFull : JsonVal :=
  .obj [("languages", .obj [("eng", .str "English"), ("fra", .str "French")]),
        ("capital", .arr [.str "Paris", .str "Lyon"]),
        ("name", .obj [("common", .str "France"),
                       ("nativeName", .obj [("fra", .str "France")])])]

/-- C7 witness: on a concrete full record, normalization flattens the
languages mapping and the capital list and removes `nativeName`. -/
theorem c7_witness :
    ∃ out, normalizeItem itemFull = Except.ok out ∧
      getKey out "languages" =
        Except.ok (.str (joinComma ([("eng", JsonVal.str "English"),
          ("fra", JsonVal.str "French")].map (fun p => pyStr p.2)))) ∧
      getKey out "capital" = Except.ok (.str (joinComma ["Paris", "Lyon"])) ∧
      ∃ nameOut, getKey out "name" = Except.ok nameOut ∧
        getKey nameOut "nativeName" = Except.error "KeyError: nativeName" :=
  c7_success_flattening itemFull
    [("eng", .str "English"), ("fra", .str "French")] ["Paris", "Lyon"]
    (.obj [("common", .str "France"), ("nativeName", .obj [("fra", .str "France")])])
    (.obj [("fra", .str "France")])
    rfl (List.cons_ne_nil _ _) rfl (List.cons_ne_nil _ _) rfl rfl rfl

/-- The leading marker character of some area codes in the raw fact
source (an apostrophe, code point 39, forcing string typing). -/
def quoteChar : Char := Char.ofNat 39

/-- `str.lstrip` of the marker character: drop every leading marker. -/
def lstripQuote (s : String) : String :=
  String.mk (s.data.dropWhile (fun ch => ch == quoteChar))

/-- `pandas.DataFrame.drop_duplicates()`: keep the first occurrence of
each row, dropping any row already seen. -/
def dropDuplicates (seen : List (String × String)) :
    List (String × String) → List (String × String)
  | [] => []
  | r :: rest =>
      if r ∈ seen then dropDuplicates seen rest
      else r :: dropDuplicates (r :: seen) rest

lemma mem_dropDuplicates (l : List (String × String)) :
    ∀ (seen : List (String × String)) (x : String × String),
      (x ∈ dropDuplicates seen l ↔ x ∈ l ∧ x ∉ seen) := by
  induction l with
  | nil => intro seen x; simp [dropDuplicates]
  | cons r rest ih =>
      intro seen x
      by_cases hr : r ∈ seen
      · rw [dropDuplicates, if_pos hr, ih]
        constructor
        · rintro ⟨hx, hns⟩
          exact ⟨List.mem_cons_of_mem _ hx, hns⟩
        · rintro ⟨hx, hns⟩
          rcases List.mem_cons.mp hx with h1 | h1
          · subst h1; exact absurd hr hns
          · exact ⟨h1, hns⟩
      · rw [dropDuplicates, if_neg hr, List.mem_cons, ih]
        constructor
        · rintro (rfl | ⟨hx, hns⟩)
          · exact ⟨List.mem_cons_self _ _, hr⟩
          · refine ⟨List.mem_cons_of_mem _ hx, fun hs => hns (List.mem_cons_of_mem _ hs)⟩
        · rintro ⟨hx, hns⟩
          by_cases hxr : x = r
          · exact Or.inl hxr
          · rcases List.mem_cons.mp hx with h1 | h1
            · exact absurd h1 hxr
            · refine Or.inr ⟨h1, fun hs => ?_⟩
              rcases List.mem_cons.mp hs with h2 | h2
              · exact hxr h2
              · exact hns h2

/-- `df[c]` for one row: the cell of the named column. -/
def cellAt (cols : List String) (r : List String) (c : String) : String :=
  match (cols.zip r).find? (fun p => p.1 == c) with
  | some p => p.2
  | none => ""

/-- Projection of one fact row to its `(Area, Area Code (M49))` pair, as
`world_data[['Area', 'Area Code (M49)']]` selects it. -/
def areaPair (cols : List String) (r : List String) : String × String :=
  (cellAt cols r "Area", cellAt cols r "Area Code (M49)")

/-- Country branch of `process_world_file_data` (lines 207-209): project
the `Area` and `Area Code (M49)` columns, `drop_duplicates()` keeping
first occurrences, then strip the leading marker from the code column. -/
def worldCountries (cols : List String) (rows : List (List String)) :
    List (String × String) :=
  (dropDuplicates [] (rows.map (areaPair cols))).map (fun p => (p.1, lstripQuote p.2))

lemma head?_dropWhile_ne (p : Char → Bool) (l : List Char) (a : Char)
    (h : (l.dropWhile p).head? = some a) : p a = false := by
  induction l with
  | nil => simp [List.dropWhile] at h
  | cons c t ih =>
      rw [List.dropWhile_cons] at h
      by_cases hc : p c = true
      · rw [if_pos hc] at h
        exact ih h
      · rw [if_neg hc] at h
        have : c = a := by simpa using h
        subst this
        simpa using hc

/-- C8: the reference-code extractor is order-independent — permuting the
rows of the fact source yields the same distinct set of
(label, entity-code) pairs — and every extracted code has its leading
marker character stripped. -/
theorem c8_extractor_order_independent (cols : List String)
    (rows1 rows2 : List (List String)) (hp : rows1.Perm rows2) :
    (worldCountries cols rows1).toFinset = (worldCountries cols rows2).toFinset ∧
      ∀ p ∈ worldCountries cols rows1, p.2.data.head? ≠ some quoteChar := by
  have hpm : (rows1.map (areaPair cols)).Perm (rows2.map (areaPair cols)) :=
    hp.map (areaPair cols)
  constructor
  · apply Finset.ext
    intro a
    simp only [List.mem_toFinset, worldCountries, List.mem_map, mem_dropDuplicates,
      List.not_mem_nil, not_false_iff, and_true]
    constructor
    · rintro ⟨b, ⟨r, hr, hrb⟩, hba⟩
      exact ⟨b, ⟨r, hp.mem_iff.mp hr, hrb⟩, hba⟩
    · rintro ⟨b, ⟨r, hr, hrb⟩, hba⟩
      exact ⟨b, ⟨r, hp.mem_iff.mpr hr, hrb⟩, hba⟩
  · intro p hmem
    rw [worldCountries, List.mem_map] at hmem
    obtain ⟨b, hb, hbp⟩ := hmem
    intro hhead
    have hp2 : p.2 = lstripQuote b.2 := by rw [← hbp]
    rw [hp2] at hhead
    have := head?_dropWhile_ne (fun ch => ch == quoteChar) b.2.data quoteChar hhead
    simp at this

/-- A small fact source: two distinct countries, one duplicated row. -/
def worldRowsA : List (List String) :=
  [["QCL", "2", "Afghanistan", "4", "Apples"],
   ["QCL", "2", "Albania", "8", "Apples"],
   ["QCL", "2", "Afghanistan", "4", "Pears"]]

/-- The same rows in a different order. -/
def worldRowsB : List (List String) :=
  [["QCL", "2", "Afghanistan", "4", "Pears"],
   ["QCL", "2", "Albania", "8", "Apples"],
   ["QCL", "2", "Afghanistan", "4", "Apples"]]

/-- C8 witness: on a concrete source, shuffling the rows leaves the
extracted code set unchanged and no extracted code keeps the marker. -/
theorem c8_witness :
    (worldCountries ["Domain", "Year", "Area", "Area Code (M49)", "Item"]
        worldRowsA).toFinset =
      (worldCountries ["Domain", "Year", "Area", "Area Code (M49)", "Item"]
        worldRowsB).toFinset ∧
      ∀ p ∈ worldCountries ["Domain", "Year", "Area", "Area Code (M49)", "Item"]
        worldRowsA, p.2.data.head? ≠ some quoteChar :=
  c8_extractor_order_independent
    ["Domain", "Year", "Area", "Area Code (M49)", "Item"]
    worldRowsA worldRowsB (by decide)

/-- A Dask dataframe: column names plus rows partitioned into chunks;
`dd.read_csv` reads the fact source this way. -/
structure DaskDF where
  cols : List String
  parts : List (List (List String))

/-- `rename(columns=m)` on a Dask dataframe: per-column renaming, the
partitioned rows untouched. -/
def renameDask (d : DaskDF) (m : List (String × String)) : DaskDF :=
  { cols := d.cols.map (renameCell m), parts := d.parts }

/-- `drop(columns=ds)` on a Dask dataframe: raises `KeyError` when a
named column is absent, otherwise removes the columns and their cells
from every row of every partition. -/
def dropDask (d : DaskDF) (ds : List String) : Except String DaskDF :=
  if ds.all (fun c => decide (c ∈ d.cols)) then
    Except.ok
      { cols := d.cols.filter (fun c => !(decide (c ∈ ds)))
        parts := d.parts.map (fun part => part.map (fun r =>
          ((d.cols.zip r).filter (fun p => !(decide (p.1 ∈ ds)))).map (fun p => p.2))) }
  else Except.error "KeyError: columns not found in axis"

/-- The column assignment `df[col] = df[col].str.lstrip(...)` (lines
222-223): strip the named column in every row of every partition. -/
def lstripColDask (d : DaskDF) (col : String) : DaskDF :=
  { cols := d.cols
    parts := d.parts.map (fun part => part.map (fun r =>
      (d.cols.zip r).map (fun p => if p.1 == col then lstripQuote p.2 else p.2))) }

/-- Column mapping of the fact transform (lines 215-218). -/
def worldMapping : List (String × String) :=
  [("Area Code (M49)", "area_code_m49"), ("Item Code", "item_code"),
   ("Element Code", "element_code"), ("Year", "year"), ("Unit", "unit_name"),
   ("Value", "value"), ("Flag", "flag_code")]

/-- Dropped columns of the fact transform (line 219). -/
def worldDrops : List String :=
  ["Area Code", "Area", "Item Code (CPC)", "Item", "Element", "Year Code"]

/-- Fact branch of `process_world_file_data`: rename, drop, then strip
the leading marker from the area code column. -/
def worldDataFinal (d : DaskDF) : Except String DaskDF := do
  let dropped ← dropDask (renameDask d worldMapping) worldDrops
  Except.ok (lstripColDask dropped "area_code_m49")

/-- The default dask index at write time: each partition carries its own
RangeIndex restarting at zero (as `dd.read_csv` assigns it, and no later
transform changes it), so the rows of one partition are labelled
`n, n+1, ...` from its start. -/
def indexRows (n : Nat) : List (List String) → List (List String)
  | [] => []
  | r :: rest => (toString n :: r) :: indexRows (n + 1) rest

/-- `to_csv(..., single_file=True)` (line 227), called without
`index=False`: the partitions are concatenated under the header and
written as one file, and the default index — each partition's own
RangeIndex restarting at zero — is written as an extra unnamed leading
column. The result is the list of files produced. -/
def toCsvSingleFile (d : DaskDF) (fname : String) : List (String × List (List String)) :=
  [(fname, ("" :: d.cols) :: (d.parts.map (fun part => indexRows 0 part)).flatten)]

/-- A written file with its leading index column removed: every row
without its first cell. -/
def dropIndexColumn (file : List (List String)) : List (List String) :=
  file.map (fun r => r.drop 1)

/-- The files written by the fact branch of `process_world_file_data`. -/
def factWorldFiles (d : DaskDF) : Except String (List (String × List (List String))) := do
  let final ← worldDataFinal d
  Except.ok (toCsvSingleFile final "fact_world_data.csv")

/-- The fact columns after renaming. -/
def worldColsRenamed (cols : List String) : List String :=
  cols.map (renameCell worldMapping)

/-- The fact columns after renaming and dropping. -/
def worldColsKept (cols : List String) : List String :=
  (worldColsRenamed cols).filter (fun c => !(decide (c ∈ worldDrops)))

/-- One fact row after the drop step. -/
def worldRowKept (cols : List String) (r : List String) : List String :=
  (((worldColsRenamed cols).zip r).filter
    (fun p => !(decide (p.1 ∈ worldDrops)))).map (fun p => p.2)

/-- One fact row after dropping and stripping: a function of the column
header and the row only, independent of the partitioning. -/
def worldRowFinal (cols : List String) (r : List String) : List String :=
  ((worldColsKept cols).zip (worldRowKept cols r)).map
    (fun p => if p.1 == "area_code_m49" then lstripQuote p.2 else p.2)

lemma join_map_map {α β : Type} (f : α → β) (parts : List (List α)) :
    (parts.map (fun part => part.map f)).flatten = parts.flatten.map f := by
  induction parts with
  | nil => rfl
  | cons p t ih =>
      rw [List.map_cons, List.flatten_cons, ih, List.flatten_cons, List.map_append]

lemma indexRows_drop_one (part : List (List String)) :
    ∀ n : Nat, (indexRows n part).map (fun r => r.drop 1) = part := by
  induction part with
  | nil => intro n; rfl
  | cons r rest ih =>
      intro n
      show (toString n :: r).drop 1 :: (indexRows (n + 1) rest).map (fun r => r.drop 1) =
        r :: rest
      rw [ih (n + 1)]
      rfl

lemma factWorldFiles_eq (d : DaskDF) :
    factWorldFiles d =
      if worldDrops.all (fun c => decide (c ∈ worldColsRenamed d.cols)) then
        Except.ok [("fact_world_data.csv",
          ("" :: worldColsKept d.cols) ::
            (d.parts.map (fun part =>
              indexRows 0 (part.map (worldRowFinal d.cols)))).flatten)]
      else Except.error "KeyError: columns not found in axis" := by
  simp only [factWorldFiles, worldDataFinal, dropDask, renameDask, lstripColDask,
    toCsvSingleFile, worldColsRenamed, worldColsKept, worldRowFinal, worldRowKept]
  by_cases hall : worldDrops.all
      (fun c => decide (c ∈ d.cols.map (renameCell worldMapping))) = true
  · rw [if_pos hall, if_pos hall]
    simp only [except_bind_ok, Function.comp_def, List.map_map]
    rfl
  · rw [if_neg hall, if_neg hall]
    rfl

lemma factWorldFiles_stripped_eq (d : DaskDF) :
    (factWorldFiles d).map (fun out => out.map (fun f => (f.1, dropIndexColumn f.2))) =
      if worldDrops.all (fun c => decide (c ∈ worldColsRenamed d.cols)) then
        Except.ok [("fact_world_data.csv",
          worldColsKept d.cols :: (d.parts.flatten.map (worldRowFinal d.cols)))]
      else Except.error "KeyError: columns not found in axis" := by
  rw [factWorldFiles_eq]
  by_cases hall : worldDrops.all (fun c => decide (c ∈ worldColsRenamed d.cols)) = true
  · rw [if_pos hall, if_pos hall]
    simp only [Except.map, dropIndexColumn, List.map_cons, List.map_nil]
    rw [← join_map_map, List.map_map]
    simp only [Function.comp_def, indexRows_drop_one]
    rw [join_map_map]
    rfl
  · rw [if_neg hall, if_neg hall]
    rfl

/-- C6 (amended): the fact transformer writes exactly one consolidated
output file, never one per partition; but because `to_csv` is called
without `index=False`, the file carries a leading unnamed index column
that restarts at zero in each partition, so the written content is not
identical across partition counts — only the file with that index column
removed is the same for any two partitionings of the same header and the
same concatenated rows. -/
theorem c6_single_consolidated_file (d1 d2 : DaskDF)
    (hcols : d1.cols = d2.cols) (hrows : d1.parts.flatten = d2.parts.flatten) :
    (∀ out, factWorldFiles d1 = Except.ok out → out.length = 1) ∧
      (factWorldFiles d1).map (fun out => out.map (fun f => (f.1, dropIndexColumn f.2))) =
        (factWorldFiles d2).map (fun out => out.map (fun f => (f.1, dropIndexColumn f.2))) := by
  constructor
  · intro out hout
    rw [factWorldFiles_eq] at hout
    by_cases hall : worldDrops.all (fun c => decide (c ∈ worldColsRenamed d1.cols)) = true
    · rw [if_pos hall] at hout
      cases hout
      rfl
    · rw [if_neg hall] at hout
      cases hout
  · rw [factWorldFiles_stripped_eq, factWorldFiles_stripped_eq, hcols, hrows]

/-- A two-row fact source in a single partition; the header holds the
area-code column plus the six dropped columns. -/
def factPairOnePart : DaskDF :=
  { cols := ["Area Code (M49)", "Area Code", "Area", "Item Code (CPC)",
             "Item", "Element", "Year Code"]
    parts := [[["'004"], ["'008"]]] }

/-- The same header and the same two rows, split into two partitions. -/
def factPairTwoParts : DaskDF :=
  { cols := ["Area Code (M49)", "Area Code", "Area", "Item Code (CPC)",
             "Item", "Element", "Year Code"]
    parts := [[["'004"]], [["'008"]]] }

/-- C6 counterexample: the same source rows under partition counts 1 and
2 produce different consolidated files — the index column reads 0,1 in
one partition but 0,0 across two — and the two row lists are not even
permutations of each other, refuting the claim that the consolidated row
set is the same regardless of the partition count. -/
theorem c6_counterexample :
    factPairOnePart.cols = factPairTwoParts.cols ∧
      factPairOnePart.parts.flatten = factPairTwoParts.parts.flatten ∧
      factWorldFiles factPairOnePart =
        Except.ok [("fact_world_data.csv",
          [["", "area_code_m49"], ["0", "004"], ["1", "008"]])] ∧
      factWorldFiles factPairTwoParts =
        Except.ok [("fact_world_data.csv",
          [["", "area_code_m49"], ["0", "004"], ["0", "008"]])] ∧
      ¬ ([["0", "004"], ["1", "008"]] : List (List String)).Perm
          [["0", "004"], ["0", "008"]] :=
  ⟨rfl, rfl, rfl, rfl, by decide⟩

/-- The header of the raw fact source. -/
def worldCols : List String :=
  ["Area Code", "Area Code (M49)", "Area", "Item Code", "Item Code (CPC)",
   "Item", "Element Code", "Element", "Year Code", "Year", "Unit", "Value", "Flag"]

/-- Four fact rows in a single partition. -/
def worldOnePart : DaskDF :=
  { cols := worldCols
    parts := [[["2", "'004", "Afghanistan", "221", "01.371", "Almonds", "5312", "Area", "1961", "1961", "ha", "21500", "A"],
               ["2", "'004", "Afghanistan", "221", "01.371", "Almonds", "5312", "Area", "1962", "1962", "ha", "21500", "A"],
               ["3", "'008", "Albania", "221", "01.371", "Almonds", "5312", "Area", "1961", "1961", "ha", "1500", "A"],
               ["3", "'008", "Albania", "221", "01.371", "Almonds", "5312", "Area", "1962", "1962", "ha", "1600", "A"]]] }

/-- The same four rows split into four partitions. -/
def worldFourParts : DaskDF :=
  { cols := worldCols
    parts := [[["2", "'004", "Afghanistan", "221", "01.371", "Almonds", "5312", "Area", "1961", "1961", "ha", "21500", "A"]],
              [["2", "'004", "Afghanistan", "221", "01.371", "Almonds", "5312", "Area", "1962", "1962", "ha", "21500", "A"]],
              [["3", "'008", "Albania", "221", "01.371", "Almonds", "5312", "Area", "1961", "1961", "ha", "1500", "A"]],
              [["3", "'008", "Albania", "221", "01.371", "Almonds", "5312", "Area", "1962", "1962", "ha", "1600", "A"]]] }

/-- C6 witness: partition counts 1 and 4 over the same four rows yield a
single output file whose content, once the index column is removed, is
identical. -/
theorem c6_witness :
    (∀ out, factWorldFiles worldOnePart = Except.ok out → out.length = 1) ∧
      (factWorldFiles worldOnePart).map
          (fun out => out.map (fun f => (f.1, dropIndexColumn f.2))) =
        (factWorldFiles worldFourParts).map
          (fun out => out.map (fun f => (f.1, dropIndexColumn f.2))) :=
  c6_single_consolidated_file worldOnePart worldFourParts rfl rfl

/-- One row of the derived countries table: the pandas row label carried
over from the fact source, the area name, and the stripped area code. -/
structure CountryRow where
  idx : Nat
  area : String
  code : String

/-- `to_csv` with the default `index=True`: the row label is written as
an extra, unnamed leading column. -/
def toCsvIndexed (cols : List String) (rows : List (Nat × List String)) :
    List (List String) :=
  ("" :: cols) :: rows.map (fun r => toString r.1 :: r.2)

/-- `to_csv(..., index=False)`: header and rows written as-is, with no
index column. -/
def toCsvNoIndex (cols : List String) (rows : List (List String)) :
    List (List String) :=
  cols :: rows

/-- The countries list file write of `process_world_file_data` (line
212): `to_csv` called without `index=False`, so the index is included. -/
def writeCountriesList (rows : List CountryRow) : List (List String) :=
  toCsvIndexed ["Area", "Area Code (M49)"] (rows.map (fun r => (r.idx, [r.area, r.code])))

/-- The `dim_country_info.csv` write of `process_countries_data` (lines
297-298): `to_csv` called without `index=False`. -/
def writeDimCountryInfo (cols : List String) (rows : List (Nat × List String)) :
    List (List String) :=
  toCsvIndexed cols rows

/-- The `dim_unit.csv` write of `process_units_data` (lines 58-59):
`to_csv(..., index=False)`, like every other dimension artifact except
`dim_country_info.csv`. -/
def writeDimUnit (df : DataFrame) : List (List String) :=
  toCsvNoIndex df.cols df.rows

/-- `f"{n:03d}"`: the number zero-padded to width three. -/
def pad3 (n : Nat) : String :=
  String.mk (List.replicate (3 - (toString n).length) '0') ++ toString n

/-- Lines 255-258 of `etl.py`: read the countries list file back
(`pd.read_csv` consumes the header row), then take each data row's cell
at position 2 — the integer pandas infers for an all-digit column — and
format it with `f"{i[2]:03d}"`. -/
def listOfCountries (file : List (List String)) : List (Option String) :=
  (file.drop 1).map (fun r => ((r.get? 2).bind String.toNat?).map pad3)

/-- C9: the countries list file and `dim_country_info.csv` are written
with the row index as an extra unnamed leading column (`to_csv` without
`index=False`), unlike `dim_unit.csv` and the other dimension artifacts;
because of that leading column, the downstream `EntityCode` extraction
finds the code at positional column 2 of every data row, and on a file
written without the index no positional column 2 would exist at all. -/
theorem c9_index_column_dependency (rows : List CountryRow) (df : DataFrame)
    (ciCols : List String) (ciRows : List (Nat × List String)) :
    (writeCountriesList rows).head? = some ["", "Area", "Area Code (M49)"] ∧
      (writeDimCountryInfo ciCols ciRows).head? = some ("" :: ciCols) ∧
      writeDimUnit df = df.cols :: df.rows ∧
      listOfCountries (writeCountriesList rows) =
        rows.map (fun r => (String.toNat? r.code).map pad3) ∧
      ((toCsvNoIndex ["Area", "Area Code (M49)"]
          (rows.map (fun r => [r.area, r.code]))).drop 1).all
        (fun r => (r.get? 2).isNone) = true := by
  refine ⟨rfl, rfl, rfl, ?_, ?_⟩
  · simp only [listOfCountries, writeCountriesList, toCsvIndexed, List.drop_succ_cons,
      List.drop_zero, List.map_map]
    rfl
  · simp [toCsvNoIndex, List.all_eq_true]

/-- `max(files, key=os.path.getctime)` over the glob result (lines
251-252): Python `max` raises `ValueError` on an empty sequence,
otherwise returns the first file of maximal creation time. -/
def latestFile (files : List (String × Nat)) : Except String String :=
  match files with
  | [] => Except.error "ValueError: max() arg is an empty sequence"
  | f :: fs => Except.ok (fs.foldl (fun best g => if best.2 < g.2 then g else best) f).1

/-- The REST Countries URL requested for one code (lines 265-266). -/
def apiUrl (code : String) : String :=
  "https://restcountries.com/v3.1/alpha/" ++ code ++
    "?fields=ccn3,flags,name,capital,languages,area,population"

/-- Codes derived from the read-back countries list file (lines 255-258):
`f"{i[2]:03d}"` for each data row; a non-integer cell makes the format
call raise. -/
def codesOfFile (file : List (List String)) : Except String (List String) :=
  (file.drop 1).mapM (fun r =>
    match (r.get? 2).bind String.toNat? with
    | some n => Except.ok (pad3 n)
    | none => Except.error "TypeError: unsupported format string")

/-- `process_countries_data` with its HTTP call trace: glob the countries
list files (paths with creation times), select the latest — raising on an
empty glob — read the selected file, derive the padded codes, fetch one
record per code and normalize the successful bodies. The second component
lists the URLs actually requested. -/
def process_countries_data_run (files : List (String × Nat))
    (tableOf : String → List (List String)) (api : String → ApiResponse) :
    Except String (List JsonVal) × List String :=
  match latestFile files with
  | Except.error e => (Except.error e, [])
  | Except.ok f =>
      match codesOfFile (tableOf f) with
      | Except.error e => (Except.error e, [])
      | Except.ok codes =>
          (countriesInfoData (fetchCountries codes api), codes.map apiUrl)

/-- C10: when no `countries_list_*` file exists the glob result is empty,
and `process_countries_data` raises the `ValueError` of `max` on an empty
sequence before making any external call — the call trace is empty —
rather than producing an empty country-info dimension. -/
theorem c10_empty_glob_raises (tableOf : String → List (List String))
    (api : String → ApiResponse) :
    process_countries_data_run [] tableOf api =
      (Except.error "ValueError: max() arg is an empty sequence", []) := rfl

end Etl
